import Mathlib

/-!
Verification of the chat-analyser RAG pipeline.

Strings are modelled as lists of character codes (`List Nat`), with the
Python string operations used by the source (lower, rstrip, replace,
strip, split, startswith, containment) embedded as executable functions.
Distances are modelled as rationals: the source only compares distances,
never computes with them, so any linear order is a faithful model of the
float comparisons it performs.
-/

/-- Character codes of a Lean string literal, used to write concrete inputs. -/
def codes (s : String) : List Nat :=
  s.toList.map Char.toNat

/-- ASCII lower-casing of one character code, as Python lower acts on ASCII. -/
def lowerC (n : Nat) : Nat :=
  if 65 ≤ n ∧ n ≤ 90 then n + 32 else n

/-- Python str.lower, character-wise. -/
def lowerStr (s : List Nat) : List Nat :=
  s.map lowerC

/-- Whitespace test matching the characters Python str.split and str.strip
treat as whitespace in the ASCII range (space, tab, LF, VT, FF, CR). -/
def isWS (n : Nat) : Bool :=
  decide (n = 32 ∨ (9 ≤ n ∧ n ≤ 13))

/-- Python s.rstrip with a question-mark argument: drop every trailing
question mark (code 63). -/
def rstripQall (s : List Nat) : List Nat :=
  (s.reverse.dropWhile (fun c => decide (c = 63))).reverse

/-- Dropping exactly one trailing question mark, the reading of rule 1 of
the informativeness filter taken by the claim under examination. -/
def rstripQone (s : List Nat) : List Nat :=
  match s.reverse with
  | [] => s
  | c :: rest => if c = 63 then rest.reverse else s

/-- Python str.strip with no argument: trim whitespace at both ends. -/
def pyStrip (s : List Nat) : List Nat :=
  ((s.dropWhile isWS).reverse.dropWhile isWS).reverse

/-- Does `s` start with `pat`? (Python str.startswith.) -/
def startsWithL : List Nat → List Nat → Bool
  | [], _ => true
  | _ :: _, [] => false
  | p :: ps, c :: cs => decide (p = c) && startsWithL ps cs

/-- Is `pat` a contiguous substring of `s`? (Python `in` on strings.) -/
def hasSub (pat : List Nat) : List Nat → Bool
  | [] => pat.isEmpty
  | c :: rest => startsWithL pat (c :: rest) || hasSub pat rest

/-- Delete every non-overlapping occurrence of the non-empty pattern `pat`,
scanning left to right; the counter consumes the tail of a match that has
already been recognised. -/
def removeOccAux (pat : List Nat) : Nat → List Nat → List Nat
  | _, [] => []
  | k + 1, _ :: rest => removeOccAux pat k rest
  | 0, c :: rest =>
    if startsWithL pat (c :: rest) then removeOccAux pat (pat.length - 1) rest
    else c :: removeOccAux pat 0 rest

/-- Python s.replace(pat, emptyString): delete all occurrences of `pat`;
with an empty pattern the string is returned unchanged, as Python does when
the replacement is empty. -/
def replaceDel (pat s : List Nat) : List Nat :=
  if pat.isEmpty then s else removeOccAux pat 0 s

/-- Python str.split with no argument: the maximal runs of non-whitespace
characters, in order; no empty tokens. -/
def splitWS (acc : List Nat) : List Nat → List (List Nat)
  | [] => if acc.isEmpty then [] else [acc.reverse]
  | c :: rest =>
    if isWS c then
      if acc.isEmpty then splitWS [] rest else acc.reverse :: splitWS [] rest
    else splitWS (c :: acc) rest

/-- Number of whitespace-separated tokens of `s` (length of Python s.split()). -/
def tokCount (s : List Nat) : Nat :=
  (splitWS [] s).length

namespace RAGSystem

/-- The fixed reference-phrase set of the informativeness filter. -/
def reference_phrases : List (List Nat) :=
  [codes ("like"), codes ("similar to"), codes ("same as")]

/-- The residual string of the informativeness filter: the lower-cased text
with every occurrence of the lower-cased, fully question-mark-stripped query
removed, then trimmed. -/
def residualText (text query : List Nat) : List Nat :=
  pyStrip (replaceDel (rstripQall (lowerStr query)) (lowerStr text))

/-- RAGSystem.is_informative_content from src/chatgpt_test.py: the heuristic
filter rejecting non-informative or circular retrieved content. -/
def is_informative_content (text query : List Nat) : Bool :=
  let text_lower := lowerStr text
  let query_lower := rstripQall (lowerStr query)
  let cleaned_text := pyStrip (replaceDel query_lower text_lower)
  if tokCount cleaned_text < 5 then false
  else if startsWithL query_lower text_lower && decide (63 ∈ text) then false
  else if reference_phrases.any
      (fun phrase => hasSub phrase cleaned_text && decide (tokCount cleaned_text < 10)) then false
  else true

/-- The informativeness filter as the claim under examination reads the
rules of the specification: identical to the source filter except that
rule 1 strips exactly one trailing question mark from the query instead of
all of them. -/
def is_informative_rules_claim (text query : List Nat) : Bool :=
  let tl := lowerStr text
  let ql := rstripQone (lowerStr query)
  let residual := pyStrip (replaceDel ql tl)
  if tokCount residual < 5 then false
  else if startsWithL ql tl && decide (63 ∈ text) then false
  else if reference_phrases.any
      (fun phrase => hasSub phrase residual && decide (tokCount residual < 10)) then false
  else true

/-- The informativeness filter per the specification rules with the
amended normalization: every trailing question mark is stripped from the
query. Stated rule by rule in the order of the specification. -/
def is_informative_rules_amended (text query : List Nat) : Bool :=
  let tl := lowerStr text
  let ql := rstripQall (lowerStr query)
  let residual := pyStrip (replaceDel ql tl)
  if tokCount residual < 5 then false
  else if startsWithL ql tl && decide (63 ∈ text) then false
  else if reference_phrases.any
      (fun phrase => hasSub phrase residual && decide (tokCount residual < 10)) then false
  else true

/-- A candidate returned by the Vector Store near-vector query: the stored
content property together with its distance metadata. -/
structure DocObj where
  content : List Nat
  distance : ℚ
deriving DecidableEq

instance : DecidableRel (fun a b : DocObj => a.distance ≤ b.distance) :=
  fun a b => inferInstanceAs (Decidable (a.distance ≤ b.distance))

/-- Python sorted with the distance key. Python sorted is a stable sort,
and the stable sort by a key is unique, so insertion sort by the same key
is extensionally the same function. -/
def sortByDistance (l : List DocObj) : List DocObj :=
  l.insertionSort (fun a b => a.distance ≤ b.distance)

/-- The default result cap of the Retriever. -/
def defaultLimit : Nat := 7

/-- The default distance threshold of the Retriever (0.75). -/
def defaultThreshold : ℚ := 3 / 4

/-- RAGSystem.retrieve_relevant_context from src/chatgpt_test.py, as a
function of the candidate set the Vector Store returns for the query
embedding: keep the candidates within the distance threshold that pass the
informativeness filter, sort them by distance, and take the first `limit`.
Embedding the query and issuing the store query are external capabilities
and appear here as the given candidate list. -/
def retrieve_relevant_context (objects : List DocObj) (query : List Nat)
    (limit : Nat) (distance_threshold : ℚ) : List DocObj :=
  let filtered_results := objects.filter
    (fun doc => decide (doc.distance ≤ distance_threshold) && is_informative_content doc.content query)
  (sortByDistance filtered_results).take limit

/-- The blank-line separator the Prompt Builder joins contents with. -/
def blankSep : List Nat := codes ("\n\n")

/-- Python separator.join for the blank-line separator. -/
def joinBlank : List (List Nat) → List Nat
  | [] => []
  | [s] => s
  | s :: t :: rest => s ++ blankSep ++ joinBlank (t :: rest)

/-- The template text before the context block in the prompt. -/
def promptHeader : List Nat :=
  codes ("Please answer the question based on the following context:\n\nContext:\n")

/-- The template text between the context block and the query. -/
def promptMid : List Nat := codes ("\n\nQuestion: ")

/-- The template text after the query in the prompt. -/
def promptTail : List Nat :=
  codes ("\n\nPlease provide a detailed answer using only the information from the given context. The provided context is the Whatsapp chats between Shashank Hegde and Shashin Bhaskar. If the context doesn\x27t contain enough information to answer the question, please state that explicitly.")

/-- RAGSystem.generate_prompt from src/chatgpt_test.py: re-sort the
retrieved context by distance, join the contents with a blank line, and
splice the block and the query into the fixed instruction template. -/
def generate_prompt (query : List Nat) (context : List DocObj) : List Nat :=
  let sorted_contexts := sortByDistance context
  let context_str := joinBlank (sorted_contexts.map (fun doc => doc.content))
  promptHeader ++ context_str ++ promptMid ++ query ++ promptTail

/-- The fixed message returned when retrieval finds nothing. -/
def noRelevantMsg : List Nat :=
  codes ("I couldn\x27t find any relevant information to answer your question.")

/-- Observable events of one run of the query pipeline, used to state
which externally visible steps an execution performs. -/
inductive Event where
  | retrieveEv
  | buildPromptEv
  | completeEv
  | closeEv
deriving DecidableEq

/-- Python try/finally around a body that has already produced its outcome
and event trace: the finalizer events run after the body, whether the body
finished normally or with an error. -/
def pyTryFinally {E : Type} (body : List Event × Except E (List Nat))
    (fin : List Event) : List Event × Except E (List Nat) :=
  (body.1 ++ fin, body.2)

/-- The try-block of RAGSystem.query: retrieval (the store call may fail),
the empty-result early return, prompt building, and the completion call
(which may fail). External effects are the store response and the
completion function. -/
def queryBody {E : Type} (store : Except E (List DocObj))
    (completeF : List Nat → Except E (List Nat)) (user_query : List Nat) :
    List Event × Except E (List Nat) :=
  match store with
  | Except.error e => ([Event.retrieveEv], Except.error e)
  | Except.ok objects =>
    let relevant_docs := retrieve_relevant_context objects user_query defaultLimit defaultThreshold
    if relevant_docs.isEmpty then ([Event.retrieveEv], Except.ok noRelevantMsg)
    else
      let prompt := generate_prompt user_query relevant_docs
      match completeF prompt with
      | Except.error e => ([Event.retrieveEv, Event.buildPromptEv, Event.completeEv], Except.error e)
      | Except.ok resp => ([Event.retrieveEv, Event.buildPromptEv, Event.completeEv], Except.ok resp)

/-- RAGSystem.query from src/chatgpt_test.py: the try-block wrapped in the
finally clause that closes the Vector Store connection. -/
def query {E : Type} (store : Except E (List DocObj))
    (completeF : List Nat → Except E (List Nat)) (user_query : List Nat) :
    List Event × Except E (List Nat) :=
  pyTryFinally (queryBody store completeF user_query) [Event.closeEv]

end RAGSystem

namespace WhatsAppChatIndexer

/-- ASCII decimal digit test, the character class of the parse pattern. -/
def isDigit (n : Nat) : Bool :=
  decide (48 ≤ n ∧ n ≤ 57)

/-- One or two digits immediately followed by the literal separator `sep`,
as the regex quantifier with backtracking resolves: two digits are taken
when the third character is the separator, otherwise one digit when the
second character is. The separator is consumed. Deterministic because the
separators used are never digits. -/
def digits12Sep (sep : Nat) (s : List Nat) : Option (List Nat × List Nat) :=
  match s with
  | a :: b :: c :: rest =>
    if isDigit a && isDigit b && decide (c = sep) then some ([a, b], rest)
    else if isDigit a && decide (b = sep) then some ([a], c :: rest)
    else none
  | [a, b] => if isDigit a && decide (b = sep) then some ([a], []) else none
  | _ => none

/-- Exactly two digits immediately followed by the literal separator `sep`,
which is consumed. -/
def digits2Sep (sep : Nat) (s : List Nat) : Option (List Nat × List Nat) :=
  match s with
  | a :: b :: c :: rest =>
    if isDigit a && isDigit b && decide (c = sep) then some ([a, b], rest) else none
  | _ => none

/-- Exactly two digits, nothing consumed after them. -/
def digits2 (s : List Nat) : Option (List Nat × List Nat) :=
  match s with
  | a :: b :: rest => if isDigit a && isDigit b then some ([a, b], rest) else none
  | _ => none

/-- The match of the WhatsApp line pattern
date, time - sender: content — with date as one-or-two digits, slash,
one-or-two digits, slash, two digits; time as one-or-two digits, colon,
two digits; sender a non-empty run of non-colon characters; content a
non-empty run of non-newline characters. Anchored at the start only, as
re.match is. Returns the four captured groups. -/
def regexMatchWA (line : List Nat) : Option (List Nat × List Nat × List Nat × List Nat) :=
  match digits12Sep 47 line with
  | none => none
  | some (m, r1) =>
  match digits12Sep 47 r1 with
  | none => none
  | some (d, r2) =>
  match digits2Sep 44 r2 with
  | none => none
  | some (y, r3) =>
  match r3 with
  | [] => none
  | w1 :: r4 =>
  if isWS w1 then
    match digits12Sep 58 r4 with
    | none => none
    | some (hh, r5) =>
    match digits2 r5 with
    | none => none
    | some (mm, r6) =>
    match r6 with
    | w2 :: dsh :: w3 :: r7 =>
      if isWS w2 && decide (dsh = 45) && isWS w3 then
        match r7.takeWhile (fun c => decide (c ≠ 58)), r7.dropWhile (fun c => decide (c ≠ 58)) with
        | s0 :: srest, colon :: r8 =>
          if decide (colon = 58) then
            match r8 with
            | w4 :: r9 =>
              if isWS w4 then
                let content := r9.takeWhile (fun c => decide (c ≠ 10))
                if content.isEmpty then none
                else some (m ++ [47] ++ d ++ [47] ++ y, hh ++ [58] ++ mm, s0 :: srest, content)
              else none
            | [] => none
          else none
        | _, _ => none
      else none
    | _ => none
  else none

/-- The numeric value of a list of ASCII digit codes. -/
def digitsVal (ds : List Nat) : Nat :=
  ds.foldl (fun acc c => acc * 10 + (c - 48)) 0

/-- A parsed calendar timestamp. -/
structure PyDateTime where
  year : Nat
  month : Nat
  day : Nat
  hour : Nat
  minute : Nat
deriving DecidableEq

/-- The Gregorian leap-year rule applied by the datetime validation. -/
def isLeapYear (y : Nat) : Bool :=
  decide (y % 4 = 0) && (decide (y % 100 ≠ 0) || decide (y % 400 = 0))

/-- Days in a month, as datetime validates the day field. -/
def daysInMonth (y m : Nat) : Nat :=
  if m = 2 then (if isLeapYear y then 29 else 28)
  else if m = 4 ∨ m = 6 ∨ m = 9 ∨ m = 11 then 30
  else 31

/-- The two-digit-year pivot of strptime: 0 to 68 mean the 2000s, 69 to 99
the 1900s. -/
def yearFrom2 (yy : Nat) : Nat :=
  if yy ≤ 68 then 2000 + yy else 1900 + yy

/-- The range validation datetime performs when strptime constructs the
parsed timestamp; out-of-range fields raise, modelled as none. -/
def mkDateTime (m d y hh mm : Nat) : Option PyDateTime :=
  let year := yearFrom2 y
  if 1 ≤ m ∧ m ≤ 12 ∧ 1 ≤ d ∧ d ≤ daysInMonth year m ∧ hh ≤ 23 ∧ mm ≤ 59 then
    some ⟨year, m, d, hh, mm⟩
  else none

/-- The final one-or-two digit field of the format: the regex takes two
digits when available, else one, and strptime then rejects the parse when
any character is left unconverted. -/
def minuteField (s : List Nat) : Option (List Nat) :=
  match s with
  | [a] => if isDigit a then some [a] else none
  | [a, b] => if isDigit a && isDigit b then some [a, b] else none
  | _ => none

/-- datetime.strptime with format month/day/two-digit-year, whitespace,
hour:minute — the combination the source uses. Returns none when the
string does not match the format, when characters remain unconverted, or
when a field is out of range. -/
def strptime_mdyhm (s : List Nat) : Option PyDateTime :=
  match digits12Sep 47 s with
  | none => none
  | some (m, r1) =>
  match digits12Sep 47 r1 with
  | none => none
  | some (d, r2) =>
  match digits2 r2 with
  | none => none
  | some (y, r3) =>
  match r3 with
  | [] => none
  | w :: r4 =>
  if isWS w then
    let r5 := r4.dropWhile isWS
    match digits12Sep 58 r5 with
    | none => none
    | some (hh, r6) =>
    match minuteField r6 with
    | none => none
    | some mm => mkDateTime (digitsVal m) (digitsVal d) (digitsVal y) (digitsVal hh) (digitsVal mm)
  else none

/-- A parsed message record. The source also stores an embedding of the
content computed by the external Embedder; the embedding is outside this
model. -/
structure ParsedMessage where
  timestamp : PyDateTime
  sender : List Nat
  content : List Nat
deriving DecidableEq

/-- WhatsAppChatIndexer.parse_message from src/weviate_trial.py: match the
line pattern, parse the timestamp from the date and time groups, and
return the record with sender and content trimmed; none on a pattern
mismatch or a timestamp parse failure. -/
def parse_message (line : List Nat) : Option ParsedMessage :=
  match regexMatchWA line with
  | none => none
  | some (date, time, sender, content) =>
    match strptime_mdyhm (date ++ [32] ++ time) with
    | none => none
    | some timestamp => some ⟨timestamp, pyStrip sender, pyStrip content⟩

end WhatsAppChatIndexer

instance : IsTotal RAGSystem.DocObj (fun a b => a.distance ≤ b.distance) :=
  ⟨fun a b => le_total a.distance b.distance⟩

instance : IsTrans RAGSystem.DocObj (fun a b => a.distance ≤ b.distance) :=
  ⟨fun _ _ _ hab hbc => le_trans hab hbc⟩

/-- The text of the counterexample to claim C2. -/
def c2text : List Nat := codes ("is it raining a lot today with heavy showers?")

/-- The query of the counterexample to claim C2: it ends in two question
marks, so stripping one and stripping all differ. -/
def c2query : List Nat := codes ("is it raining??")

/-- The text of the counterexample to claim C7: it starts with the query
only up to letter case. -/
def c7text : List Nat := codes ("Is it raining heavily today with strong cold winds?")

/-- The query of the counterexample to claim C7. -/
def c7query : List Nat := codes ("is it raining")

/-- The first, nearer document of the C8 witness context. -/
def c8doc1 : RAGSystem.DocObj := ⟨codes ("the sun was shining"), 1⟩

/-- The second, farther document of the C8 witness context. -/
def c8doc2 : RAGSystem.DocObj := ⟨codes ("clouds gathered later"), 2⟩

/-- The C8 witness context, already sorted by distance. -/
def c8ctx : List RAGSystem.DocObj := [c8doc1, c8doc2]

/-- The concrete chat line of the C4 witness. -/
def c4line : List Nat := codes ("12/25/21, 14:30 - John Doe: Merry Christmas to everyone")

/-- The date group the pattern captures from the C4 witness line. -/
def c4date : List Nat := codes ("12/25/21")

/-- The time group the pattern captures from the C4 witness line. -/
def c4time : List Nat := codes ("14:30")

/-- The sender group the pattern captures from the C4 witness line. -/
def c4sender : List Nat := codes ("John Doe")

/-- The content group the pattern captures from the C4 witness line. -/
def c4content : List Nat := codes ("Merry Christmas to everyone")

/-- The timestamp parsed from the C4 witness line. -/
def c4ts : WhatsAppChatIndexer.PyDateTime := ⟨2021, 12, 25, 14, 30⟩

section Lemmas

theorem startsWithL_iff (p : List Nat) : ∀ s, startsWithL p s = true ↔ ∃ t, s = p ++ t := by
  induction p with
  | nil =>
    intro s
    constructor
    · intro _
      exact ⟨s, rfl⟩
    · intro _
      rfl
  | cons a ps ih =>
    intro s
    cases s with
    | nil =>
      simp only [startsWithL, List.cons_append]
      constructor
      · intro h
        exact absurd h Bool.false_ne_true
      · rintro ⟨t, h⟩
        exact List.noConfusion h
    | cons c cs =>
      simp only [startsWithL, Bool.and_eq_true, decide_eq_true_eq, ih, List.cons_append]
      constructor
      · rintro ⟨rfl, t, rfl⟩
        exact ⟨t, rfl⟩
      · rintro ⟨t, h⟩
        injection h with h1 h2
        exact ⟨h1.symm, t, h2⟩

theorem startsWithL_self_append (p t : List Nat) : startsWithL p (p ++ t) = true :=
  (startsWithL_iff p (p ++ t)).mpr ⟨t, rfl⟩

theorem hasSub_of_decomp (p : List Nat) : ∀ u v, hasSub p (u ++ (p ++ v)) = true := by
  intro u
  induction u with
  | nil =>
    intro v
    cases hp : p ++ v with
    | nil =>
      rcases List.append_eq_nil.mp hp with ⟨rfl, rfl⟩
      rfl
    | cons c cs =>
      simp only [List.nil_append, hp, hasSub, Bool.or_eq_true]
      exact Or.inl (hp ▸ startsWithL_self_append p v)
  | cons c cs ih =>
    intro v
    simp only [List.cons_append, hasSub, Bool.or_eq_true]
    exact Or.inr (ih v)

theorem rstripQall_decomp (s : List Nat) : ∃ u, s = rstripQall s ++ u := by
  refine ⟨(s.reverse.takeWhile (fun c => decide (c = 63))).reverse, ?_⟩
  have h := List.takeWhile_append_dropWhile (p := fun c => decide (c = 63)) (l := s.reverse)
  calc s = s.reverse.reverse := (List.reverse_reverse s).symm
    _ = (s.reverse.takeWhile (fun c => decide (c = 63)) ++ s.reverse.dropWhile (fun c => decide (c = 63))).reverse := by rw [h]
    _ = rstripQall s ++ (s.reverse.takeWhile (fun c => decide (c = 63))).reverse := by
        rw [List.reverse_append]
        rfl

theorem lowerC_idem (n : Nat) : lowerC (lowerC n) = lowerC n := by
  unfold lowerC
  by_cases h : 65 ≤ n ∧ n ≤ 90
  · rw [if_pos h, if_neg (show ¬(65 ≤ n + 32 ∧ n + 32 ≤ 90) by omega)]
  · rw [if_neg h, if_neg h]

theorem lowerStr_idem (s : List Nat) : lowerStr (lowerStr s) = lowerStr s := by
  unfold lowerStr
  rw [List.map_map]
  exact List.map_congr_left (fun a _ => lowerC_idem a)

theorem lowerC_eq_63 (n : Nat) : lowerC n = 63 ↔ n = 63 := by
  unfold lowerC
  by_cases h : 65 ≤ n ∧ n ≤ 90
  · rw [if_pos h]
    omega
  · rw [if_neg h]

theorem mem63_lowerStr (s : List Nat) : 63 ∈ lowerStr s ↔ 63 ∈ s := by
  unfold lowerStr
  rw [List.mem_map]
  constructor
  · rintro ⟨a, ha, hla⟩
    exact ((lowerC_eq_63 a).mp hla) ▸ ha
  · intro h
    exact ⟨63, h, rfl⟩


theorem sortByDistance_pairwise (l : List RAGSystem.DocObj) :
    (RAGSystem.sortByDistance l).Pairwise (fun a b => a.distance ≤ b.distance) :=
  show List.Sorted (fun a b : RAGSystem.DocObj => a.distance ≤ b.distance)
      (List.insertionSort (fun a b : RAGSystem.DocObj => a.distance ≤ b.distance) l) from
    List.sorted_insertionSort (fun a b : RAGSystem.DocObj => a.distance ≤ b.distance) l

theorem mem_sortByDistance {a : RAGSystem.DocObj} {l : List RAGSystem.DocObj} :
    a ∈ RAGSystem.sortByDistance l ↔ a ∈ l :=
  (List.perm_insertionSort (fun a b => a.distance ≤ b.distance) l).mem_iff

theorem sortByDistance_of_pairwise {l : List RAGSystem.DocObj}
    (h : l.Pairwise (fun a b => a.distance ≤ b.distance)) :
    RAGSystem.sortByDistance l = l :=
  List.Sorted.insertionSort_eq h

theorem joinBlank_decomp (x : List Nat) :
    ∀ l : List (List Nat), x ∈ l → ∃ u v, RAGSystem.joinBlank l = u ++ (x ++ v) := by
  intro l
  induction l with
  | nil => intro h; exact absurd h (List.not_mem_nil x)
  | cons a rest ih =>
    intro h
    rcases List.mem_cons.mp h with rfl | hrest
    · cases rest with
      | nil => exact ⟨[], [], by simp [RAGSystem.joinBlank]⟩
      | cons b rest2 =>
        refine ⟨[], RAGSystem.blankSep ++ RAGSystem.joinBlank (b :: rest2), ?_⟩
        simp [RAGSystem.joinBlank, List.append_assoc]
    · rcases ih hrest with ⟨u, v, hu⟩
      cases rest with
      | nil => exact absurd hrest (List.not_mem_nil x)
      | cons b rest2 =>
        refine ⟨a ++ RAGSystem.blankSep ++ u, v, ?_⟩
        simp only [RAGSystem.joinBlank, hu, List.append_assoc]

end Lemmas

/-- Claim C1: for every candidate set the Vector Store returns, every query,
limit, and distance threshold, the Retriever result is sorted by
non-decreasing distance, has length at most the requested limit, and every
returned item has distance at most the threshold, over-threshold candidates
having been discarded before sorting and truncation. -/
theorem retrieve_relevant_context_sorted_bounded_within (objects : List RAGSystem.DocObj)
    (query : List Nat) (limit : Nat) (distance_threshold : ℚ) :
    (RAGSystem.retrieve_relevant_context objects query limit distance_threshold).Pairwise
      (fun a b => a.distance ≤ b.distance)
    ∧ (RAGSystem.retrieve_relevant_context objects query limit distance_threshold).length ≤ limit
    ∧ ∀ doc ∈ RAGSystem.retrieve_relevant_context objects query limit distance_threshold,
        doc.distance ≤ distance_threshold := by
  simp only [RAGSystem.retrieve_relevant_context]
  refine ⟨?_, ?_, ?_⟩
  · exact List.Pairwise.sublist (List.take_sublist limit _) (sortByDistance_pairwise _)
  · exact List.length_take_le limit _
  · intro doc hdoc
    have hms := List.mem_of_mem_take hdoc
    rw [mem_sortByDistance] at hms
    have hp := (List.mem_filter.mp hms).2
    rw [Bool.and_eq_true] at hp
    exact of_decide_eq_true hp.1

/-- Claim C5: when the residual left after removing the query from the text
has fewer than five whitespace-separated tokens, the informativeness filter
rejects. -/
theorem is_informative_short_residual_false (text query : List Nat)
    (h : tokCount (RAGSystem.residualText text query) < 5) :
    RAGSystem.is_informative_content text query = false := by
  simp only [RAGSystem.residualText] at h
  simp only [RAGSystem.is_informative_content]
  rw [if_pos h]

/-- Witness for C5 at the example of the specification. -/
theorem is_informative_short_residual_false_witness :
    tokCount (RAGSystem.residualText (codes ("yes")) (codes ("is it raining"))) < 5
    ∧ RAGSystem.is_informative_content (codes ("yes")) (codes ("is it raining")) = false :=
  ⟨by decide, is_informative_short_residual_false (codes ("yes")) (codes ("is it raining")) (by decide)⟩

/-- Claim C6: when the text starts with the query string and contains a
question mark anywhere, the informativeness filter rejects. -/
theorem is_informative_restated_question_false (text query : List Nat)
    (h1 : startsWithL query text = true) (h2 : 63 ∈ text) :
    RAGSystem.is_informative_content text query = false := by
  have hsw : startsWithL (rstripQall (lowerStr query)) (lowerStr text) = true := by
    rcases (startsWithL_iff query text).mp h1 with ⟨t, rfl⟩
    rcases rstripQall_decomp (lowerStr query) with ⟨u, hu⟩
    refine (startsWithL_iff _ _).mpr ⟨u ++ lowerStr t, ?_⟩
    simp only [lowerStr, List.map_append] at hu ⊢
    rw [← List.append_assoc, ← hu]
  simp only [RAGSystem.is_informative_content]
  by_cases hc : tokCount (pyStrip (replaceDel (rstripQall (lowerStr query)) (lowerStr text))) < 5
  · rw [if_pos hc]
  · rw [if_neg hc, if_pos (show (startsWithL (rstripQall (lowerStr query)) (lowerStr text)
      && decide (63 ∈ text)) = true by rw [hsw, decide_eq_true h2]; rfl)]

/-- Witness for C6 at the example of the specification. -/
theorem is_informative_restated_question_false_witness :
    startsWithL (codes ("is it raining")) (codes ("is it raining outside today?")) = true
    ∧ 63 ∈ codes ("is it raining outside today?")
    ∧ RAGSystem.is_informative_content (codes ("is it raining outside today?"))
        (codes ("is it raining")) = false :=
  ⟨by decide, by decide,
    is_informative_restated_question_false (codes ("is it raining outside today?"))
      (codes ("is it raining")) (by decide) (by decide)⟩

/-- Claim C10: the informativeness filter is invariant under lower-casing
both arguments. -/
theorem is_informative_lower_invariant (text query : List Nat) :
    RAGSystem.is_informative_content (lowerStr text) (lowerStr query) =
      RAGSystem.is_informative_content text query := by
  simp only [RAGSystem.is_informative_content]
  rw [lowerStr_idem text, lowerStr_idem query, decide_eq_decide.mpr (mem63_lowerStr text)]


/-- Counterexample to claim C2: at this input the source filter rejects
while the claimed rule set (stripping exactly one trailing question mark)
accepts, so the two predicates are not equal. -/
theorem is_informative_rules_claim_counterexample :
    RAGSystem.is_informative_content c2text c2query = false
    ∧ RAGSystem.is_informative_rules_claim c2text c2query = true :=
  ⟨by decide, by decide⟩

/-- Claim C2 as amended: the filter equals the rule set of the
specification when rule 1 strips every trailing question mark from the
query rather than exactly one. -/
theorem is_informative_content_eq_rules_amended (text query : List Nat) :
    RAGSystem.is_informative_content text query =
      RAGSystem.is_informative_rules_amended text query := rfl


/-- Counterexample to claim C7: every hypothesis of the claim holds at this
input — the residual has at least five tokens, the text does not start
with the query string (the case differs), and no reference phrase applies —
yet the source filter rejects, because its restated-question check compares
the lower-cased text with the lower-cased stripped query. -/
theorem is_informative_accept_claim_counterexample :
    5 ≤ tokCount (RAGSystem.residualText c7text c7query)
    ∧ ¬(startsWithL c7query c7text = true ∧ 63 ∈ c7text)
    ∧ RAGSystem.reference_phrases.any
        (fun phrase => hasSub phrase (RAGSystem.residualText c7text c7query)
          && decide (tokCount (RAGSystem.residualText c7text c7query) < 10)) = false
    ∧ RAGSystem.is_informative_content c7text c7query = false :=
  ⟨by decide, by decide, by decide, by decide⟩

/-- Claim C7 as amended: the filter accepts whenever the residual has at
least five tokens, the lower-cased text does not start with the lower-cased
question-mark-stripped query while the text contains a question mark, and
no reference phrase occurs in a residual of fewer than ten tokens. -/
theorem is_informative_accepts_amended (text query : List Nat)
    (h1 : ¬ tokCount (RAGSystem.residualText text query) < 5)
    (h2 : ¬(startsWithL (rstripQall (lowerStr query)) (lowerStr text) = true ∧ 63 ∈ text))
    (h3 : RAGSystem.reference_phrases.any
        (fun phrase => hasSub phrase (RAGSystem.residualText text query)
          && decide (tokCount (RAGSystem.residualText text query) < 10)) = false) :
    RAGSystem.is_informative_content text query = true := by
  simp only [RAGSystem.residualText] at h1 h3
  have hc2 : ¬((startsWithL (rstripQall (lowerStr query)) (lowerStr text)
      && decide (63 ∈ text)) = true) := by
    intro hcond
    rw [Bool.and_eq_true, decide_eq_true_eq] at hcond
    exact h2 hcond
  have hc3 : ¬(RAGSystem.reference_phrases.any
      (fun phrase => hasSub phrase (pyStrip (replaceDel (rstripQall (lowerStr query)) (lowerStr text)))
        && decide (tokCount (pyStrip (replaceDel (rstripQall (lowerStr query)) (lowerStr text))) < 10)) = true) := by
    intro hcond
    rw [h3] at hcond
    exact Bool.false_ne_true hcond
  simp only [RAGSystem.is_informative_content]
  rw [if_neg h1, if_neg hc2, if_neg hc3]

/-- Witness for the amended C7 at the accepting example of the
specification. -/
theorem is_informative_accepts_amended_witness :
    RAGSystem.is_informative_content
      (codes ("it rained heavily all night and flooded the street"))
      (codes ("is it raining")) = true :=
  is_informative_accepts_amended
    (codes ("it rained heavily all night and flooded the street"))
    (codes ("is it raining")) (by decide) (by decide) (by decide)

/-- Claim C9: on every exit path of the query pipeline — a store failure, the
empty-retrieval return, a completion failure, or a completion answer — the
connection-close finalizer runs, and runs last. -/
theorem query_always_closes {E : Type} (store : Except E (List RAGSystem.DocObj))
    (completeF : List Nat → Except E (List Nat)) (user_query : List Nat) :
    RAGSystem.Event.closeEv ∈ (RAGSystem.query store completeF user_query).1
    ∧ (RAGSystem.query store completeF user_query).1.getLast? =
        some RAGSystem.Event.closeEv := by
  constructor
  · show RAGSystem.Event.closeEv ∈
      (RAGSystem.queryBody store completeF user_query).1 ++ [RAGSystem.Event.closeEv]
    exact List.mem_append_right _ (List.mem_singleton.mpr rfl)
  · show ((RAGSystem.queryBody store completeF user_query).1 ++ [RAGSystem.Event.closeEv]).getLast? =
      some RAGSystem.Event.closeEv
    exact List.getLast?_concat _

/-- Claim C3: when retrieval over the store response yields no documents,
the orchestrator returns the fixed no-relevant-information message and the
completion client is never invoked; the empty retrieval is a normal
outcome, not an error. -/
theorem query_empty_retrieval_no_completion {E : Type} (store : Except E (List RAGSystem.DocObj))
    (completeF : List Nat → Except E (List Nat)) (user_query : List Nat)
    (objects : List RAGSystem.DocObj) (hs : store = Except.ok objects)
    (he : RAGSystem.retrieve_relevant_context objects user_query RAGSystem.defaultLimit
      RAGSystem.defaultThreshold = []) :
    (RAGSystem.query store completeF user_query).2 = Except.ok RAGSystem.noRelevantMsg
    ∧ RAGSystem.Event.completeEv ∉ (RAGSystem.query store completeF user_query).1 := by
  subst hs
  have hbody : RAGSystem.queryBody (Except.ok objects) completeF user_query =
      ([RAGSystem.Event.retrieveEv], Except.ok RAGSystem.noRelevantMsg) := by
    simp [RAGSystem.queryBody, he]
  constructor
  · show (RAGSystem.pyTryFinally (RAGSystem.queryBody (Except.ok objects) completeF user_query)
      [RAGSystem.Event.closeEv]).2 = Except.ok RAGSystem.noRelevantMsg
    rw [hbody]
    rfl
  · show RAGSystem.Event.completeEv ∉
      (RAGSystem.queryBody (Except.ok objects) completeF user_query).1 ++ [RAGSystem.Event.closeEv]
    rw [hbody]
    show RAGSystem.Event.completeEv ∉ [RAGSystem.Event.retrieveEv] ++ [RAGSystem.Event.closeEv]
    decide

/-- Witness for C3: an empty store response retrieves nothing. -/
theorem query_empty_retrieval_no_completion_witness :
    (RAGSystem.query (Except.ok ([] : List RAGSystem.DocObj))
        (fun _ => Except.error ()) (codes ("any question"))).2 = Except.ok RAGSystem.noRelevantMsg
    ∧ RAGSystem.Event.completeEv ∉ (RAGSystem.query (Except.ok ([] : List RAGSystem.DocObj))
        (fun _ => Except.error ()) (codes ("any question"))).1 :=
  query_empty_retrieval_no_completion _ _ (codes ("any question")) [] rfl rfl

/-- Claim C8: the Prompt Builder output contains the query verbatim and
every included message content as a substring; the output splices the
contents joined by a blank line in ascending-distance order into the fixed
template; and re-sorting an already distance-sorted input leaves the order
of contents unchanged. -/
theorem generate_prompt_contains_and_ordered (query : List Nat) (context : List RAGSystem.DocObj) :
    hasSub query (RAGSystem.generate_prompt query context) = true
    ∧ (∀ doc ∈ context, hasSub doc.content (RAGSystem.generate_prompt query context) = true)
    ∧ RAGSystem.generate_prompt query context =
        RAGSystem.promptHeader
          ++ RAGSystem.joinBlank ((RAGSystem.sortByDistance context).map (fun doc => doc.content))
          ++ RAGSystem.promptMid ++ query ++ RAGSystem.promptTail
    ∧ (RAGSystem.sortByDistance context).Pairwise (fun a b => a.distance ≤ b.distance)
    ∧ (context.Pairwise (fun a b => a.distance ≤ b.distance) →
        RAGSystem.sortByDistance context = context) := by
  refine ⟨?_, ?_, rfl, sortByDistance_pairwise context, sortByDistance_of_pairwise⟩
  · have h := hasSub_of_decomp query
      (RAGSystem.promptHeader
        ++ RAGSystem.joinBlank ((RAGSystem.sortByDistance context).map (fun doc => doc.content))
        ++ RAGSystem.promptMid) RAGSystem.promptTail
    simpa [RAGSystem.generate_prompt, List.append_assoc] using h
  · intro doc hdoc
    have hm : doc.content ∈ (RAGSystem.sortByDistance context).map (fun d => d.content) :=
      List.mem_map.mpr ⟨doc, mem_sortByDistance.mpr hdoc, rfl⟩
    rcases joinBlank_decomp doc.content _ hm with ⟨u, v, hj⟩
    have h := hasSub_of_decomp doc.content (RAGSystem.promptHeader ++ u)
      (v ++ RAGSystem.promptMid ++ query ++ RAGSystem.promptTail)
    simpa [RAGSystem.generate_prompt, hj, List.append_assoc] using h


/-- Witness for C8: a contained content and the no-op re-sort at a sorted
context. -/
theorem generate_prompt_contains_and_ordered_witness :
    hasSub c8doc1.content (RAGSystem.generate_prompt (codes ("what was the weather")) c8ctx) = true
    ∧ RAGSystem.sortByDistance c8ctx = c8ctx :=
  ⟨(generate_prompt_contains_and_ordered (codes ("what was the weather")) c8ctx).2.1 c8doc1
      (List.mem_cons_self c8doc1 [c8doc2]),
   (generate_prompt_contains_and_ordered (codes ("what was the weather")) c8ctx).2.2.2.2 (by decide)⟩

/-- Claim C4: a line matching the WhatsApp pattern whose timestamp parses
yields the record with the parsed calendar timestamp and the trimmed sender
and content groups; a non-matching line, or a matching line whose timestamp
fails to parse, yields no record rather than an error. -/
theorem parse_message_correct (line : List Nat) :
    (WhatsAppChatIndexer.regexMatchWA line = none → WhatsAppChatIndexer.parse_message line = none)
    ∧ (∀ date time sender content,
        WhatsAppChatIndexer.regexMatchWA line = some (date, time, sender, content) →
        (WhatsAppChatIndexer.strptime_mdyhm (date ++ [32] ++ time) = none →
          WhatsAppChatIndexer.parse_message line = none)
        ∧ (∀ ts, WhatsAppChatIndexer.strptime_mdyhm (date ++ [32] ++ time) = some ts →
            WhatsAppChatIndexer.parse_message line =
              some ⟨ts, pyStrip sender, pyStrip content⟩)) := by
  refine ⟨?_, ?_⟩
  · intro h
    simp only [WhatsAppChatIndexer.parse_message, h]
  · intro date time sender content h
    refine ⟨?_, ?_⟩
    · intro hn
      simp only [WhatsAppChatIndexer.parse_message, h, hn]
    · intro ts hts
      simp only [WhatsAppChatIndexer.parse_message, h, hts]


/-- Witness for C4 at a concrete well-formed chat line. -/
theorem parse_message_correct_witness :
    WhatsAppChatIndexer.parse_message c4line =
      some ⟨c4ts, pyStrip c4sender, pyStrip c4content⟩ :=
  ((parse_message_correct c4line).2 c4date c4time c4sender c4content (by decide)).2 c4ts (by decide)
